import Mathlib

/-!
# Verification of the nail-salon inventory core (`src/lib/inventory/product-service.ts`)

A shallow embedding of the inventory data model and its operations:
`createProduct`, `addProductStock`, `recordProductUsage`,
`calculateAdjustedUsageAmount` and `updateMonthlyStats`, translated from
`src/lib/inventory/product-service.ts` (the service-type functions live in the
same source bundle) together with the Prisma schema.

Modelling conventions:
* The document store is a `DB` structure of lists of rows; `prisma.X.create`
  appends a row, `prisma.X.update` maps over the list replacing the row with
  the matching id.  Auto-generated object ids are modelled by a `nextId`
  counter; `new Date()` by a `now : Nat` field of the state.
* JavaScript numbers are modelled as `ℚ` (amounts, rates) and `Nat`/`Int`
  (counters, years); `Math.round` as `⌊x + 1/2⌋` (round half towards +∞, as in
  JS) and `Number.prototype.toFixed 2` followed by `parseFloat` as
  `⌊x * 100 + 1/2⌋ / 100`.
* `prisma.$transaction (async tx => ...)` is all-or-nothing: the body is a
  function from the state that either returns the updated state or an error,
  and on an error the pre-transaction state is kept (rollback).
* The query `currentProductLots { where: { isInUse: true }, orderBy:
  { startedAt: 'asc' } }` followed by taking element `[0]` is modelled by
  `oldestInUseLot`: the first in-use lot of the product with the smallest
  `startedAt` (MongoDB sorts missing/null values first in ascending order, so
  the sort key maps `none` below every `some t`).
* A MongoDB `$inc` on a `null` field (a Prisma `decrement` of a lot whose
  `currentAmount` is `null`) raises a runtime error, aborting the enclosing
  transaction; this is the `decrementOnNull` error.
-/

/-- `NailLength` enum from the Prisma schema. -/
inductive NailLength where
  | SHORT
  | MEDIUM
  | LONG
deriving DecidableEq

/-- Errors thrown by the service functions (each corresponds to a `throw new
Error(...)` in the source, except `decrementOnNull`, the database error raised
by decrementing a `null` amount). -/
inductive UErr where
  | storeNotFound
  | productNotFound
  | userNotFound
  | outOfStock
  | serviceTypeNotFound
  | insufficientQuantity
  | relatedUnavailable
  | decrementOnNull
deriving DecidableEq

/-- `ProductLot` rows (fields relevant to the inventory core). -/
structure Lot where
  id : Nat
  productId : Nat
  isInUse : Bool
  currentAmount : Option ℚ
  startedAt : Option Nat
deriving DecidableEq

/-- `Product` rows (fields relevant to the inventory core). -/
structure Product where
  id : Nat
  storeId : Nat
  totalQuantity : Nat
  inUseQuantity : Nat
  lotQuantity : Nat
  usageCount : Nat
  lastUsed : Option Nat
deriving DecidableEq

/-- `ServiceType` rows (fields relevant to the inventory core). -/
structure ServiceType where
  id : Nat
  storeId : Nat
  isGelService : Bool
  shortLengthRate : ℤ
  mediumLengthRate : ℤ
  longLengthRate : ℤ
  designUsageRate : Option ℚ
deriving DecidableEq

/-- `Usage` rows. -/
structure UsageRec where
  id : Nat
  date : Nat
  usageAmount : ℚ
  defaultAmount : Option ℚ
  nailLength : NailLength
  isCustomAmount : Bool
  isGelService : Bool
  serviceTypeId : Nat
  productId : Nat
  usedLotId : Nat
  note : Option String
deriving DecidableEq

/-- `RelatedProductUsage` rows. -/
structure RelatedUsageRec where
  id : Nat
  usageId : Nat
  productId : Nat
  amount : ℚ
  defaultAmount : Option ℚ
  isCustomAmount : Bool
  role : Option String
  order : ℤ
  usedLotId : Nat
deriving DecidableEq

/-- `Activity` rows. -/
structure ActivityRec where
  userId : Nat
  activityType : String
  action : String
deriving DecidableEq

/-- `MonthlyServiceStat` rows. -/
structure MonthlyStat where
  id : Nat
  serviceTypeId : Nat
  year : ℤ
  month : Nat
  totalUsage : ℚ
  usageCount : Nat
  averageUsage : ℚ
deriving DecidableEq

/-- The document store: one list of rows per collection, an id allocator and
the current clock. -/
structure DB where
  stores : List Nat
  users : List Nat
  products : List Product
  lots : List Lot
  serviceTypes : List ServiceType
  usages : List UsageRec
  relatedUsages : List RelatedUsageRec
  activities : List ActivityRec
  monthlyStats : List MonthlyStat
  nextId : Nat
  now : Nat
deriving DecidableEq

/-- A JS `Date`, reduced to what `getFullYear`/`getMonth` return. -/
structure DateRec where
  year : ℤ
  monthIndex : Nat
deriving DecidableEq

/-- `prisma.store.findUnique({ where: { id } })` as an existence check. -/
def storeExists (db : DB) (id : Nat) : Bool :=
  db.stores.contains id

/-- `prisma.user.findUnique({ where: { id } })` as an existence check. -/
def userExists (db : DB) (id : Nat) : Bool :=
  db.users.contains id

/-- `prisma.product.findUnique({ where: { id } })`. -/
def findProduct (db : DB) (id : Nat) : Option Product :=
  db.products.find? (fun p => p.id == id)

/-- `prisma.serviceType.findUnique({ where: { id } })`. -/
def findServiceType (db : DB) (id : Nat) : Option ServiceType :=
  db.serviceTypes.find? (fun s => s.id == id)

/-- The in-use lots of a product (`currentProductLots` with
`where: { isInUse: true }`). -/
def inUseLots (db : DB) (productId : Nat) : List Lot :=
  db.lots.filter (fun l => l.productId == productId && l.isInUse)

/-- Sort key of `orderBy: { startedAt: 'asc' }`: MongoDB puts null `startedAt`
first, so `none` maps below every `some t`. -/
def lotKey (l : Lot) : Nat :=
  match l.startedAt with
  | none => 0
  | some t => t + 1

/-- One step of the running minimum: keep the earlier lot on equal keys. -/
def oldestStep (acc : Option Lot) (l : Lot) : Option Lot :=
  match acc with
  | none => some l
  | some m => if lotKey l < lotKey m then some l else some m

/-- First element with minimal key, keeping the earlier of two equal keys:
the head of the lots sorted by `startedAt` ascending. -/
def oldestFold : Option Lot → List Lot → Option Lot
  | acc, [] => acc
  | acc, l :: ls => oldestFold (oldestStep acc l) ls

/-- `product.currentProductLots[0]` after the in-use/`startedAt`-ascending
query: `none` exactly when the product has no in-use lot. -/
def oldestInUseLot (db : DB) (productId : Nat) : Option Lot :=
  oldestFold none (inUseLots db productId)

/-- `prisma.productLot.update` decrementing `currentAmount`; a decrement of a
`null` amount is the database error that aborts the transaction. -/
def decLotAmount (db : DB) (lotId : Nat) (amt : ℚ) : Except UErr DB :=
  match db.lots.find? (fun l => l.id == lotId) with
  | none => .error .decrementOnNull
  | some l =>
    match l.currentAmount with
    | none => .error .decrementOnNull
    | some _ =>
      .ok { db with
              lots := db.lots.map (fun l' =>
                if l'.id == lotId then
                  { l' with currentAmount := l'.currentAmount.map (fun a => a - amt) }
                else l') }

/-- `prisma.monthlyServiceStat.findUnique` on the compound key
`(serviceTypeId, year, month)`. -/
def findStat (db : DB) (serviceTypeId : Nat) (year : ℤ) (month : Nat) :
    Option MonthlyStat :=
  db.monthlyStats.find? (fun s =>
    s.serviceTypeId == serviceTypeId && s.year == year && s.month == month)

/-- Parameters of `createProduct` (fields relevant to the claims; the TS
default `totalQuantity = 1` is applied by `getD` as in the destructuring). -/
structure CreateProductParams where
  totalQuantity : Option Nat
  storeId : Nat
deriving DecidableEq

/--
`createProduct`: checks the store exists, creates the `Product` row with
`lotQuantity = totalQuantity` and `inUseQuantity`/`usageCount` at their
schema defaults `0`, then creates `totalQuantity` unused `ProductLot` rows in
a loop.
-/
def mkUnusedLots (productId : Nat) (startId : Nat) : Nat → List Lot
  | 0 => []
  | n + 1 =>
    { id := startId, productId := productId, isInUse := false,
      currentAmount := none, startedAt := none } :: mkUnusedLots productId (startId + 1) n

def createProduct (p : CreateProductParams) (db : DB) : Except UErr Product × DB :=
  if !storeExists db p.storeId then
    (.error .storeNotFound, db)
  else
    let n := p.totalQuantity.getD 1
    let prod : Product :=
      { id := db.nextId, storeId := p.storeId, totalQuantity := n,
        inUseQuantity := 0, lotQuantity := n, usageCount := 0, lastUsed := none }
    let db1 : DB :=
      { db with products := db.products ++ [prod], nextId := db.nextId + 1 }
    let db2 : DB :=
      { db1 with lots := db1.lots ++ mkUnusedLots prod.id db1.nextId n,
                 nextId := db1.nextId + n }
    (.ok prod, db2)

/-- Parameters of `addProductStock`. -/
structure AddStockParams where
  productId : Nat
  quantity : Nat
  currentAmount : Option ℚ
  isInUse : Bool
  addedBy : Nat
deriving DecidableEq

/--
`addProductStock`: checks product and user exist, then in one transaction
creates **one** lot (in the requested state) and increments the product's
counters by `quantity`, and finally records an activity row.
-/
def addProductStock (p : AddStockParams) (db : DB) : Except UErr Lot × DB :=
  match findProduct db p.productId with
  | none => (.error .productNotFound, db)
  | some _ =>
    if !userExists db p.addedBy then
      (.error .userNotFound, db)
    else
      let lot : Lot :=
        { id := db.nextId, productId := p.productId, isInUse := p.isInUse,
          currentAmount := if p.isInUse then p.currentAmount else none,
          startedAt := if p.isInUse then some db.now else none }
      let db1 : DB :=
        { db with
            lots := db.lots ++ [lot],
            products := db.products.map (fun q =>
              if q.id == p.productId then
                { q with
                    totalQuantity := q.totalQuantity + p.quantity,
                    lotQuantity := q.lotQuantity + (if p.isInUse then 0 else p.quantity),
                    inUseQuantity := q.inUseQuantity + (if p.isInUse then p.quantity else 0) }
              else q),
            nextId := db.nextId + 1 }
      let db2 : DB :=
        { db1 with
            activities := db1.activities ++
              [{ userId := p.addedBy, activityType := "INVENTORY", action := "ADD_STOCK" }] }
      (.ok lot, db2)

/-- One entry of the `relatedProducts` list of `recordProductUsage`; the TS
defaults (`isCustomAmount || false`, `order || 0`) are applied at use sites. -/
structure RelatedEntry where
  productId : Nat
  amount : ℚ
  defaultAmount : Option ℚ
  isCustomAmount : Option Bool
  role : Option String
  order : Option ℤ
deriving DecidableEq

/-- Parameters of `recordProductUsage`. -/
structure RecordUsageParams where
  productId : Nat
  serviceTypeId : Nat
  usageAmount : ℚ
  defaultAmount : Option ℚ
  nailLength : NailLength
  isCustomAmount : Bool
  relatedProducts : List RelatedEntry
  note : Option String
  recordedBy : Nat
deriving DecidableEq

/--
The `for (const related of relatedProducts)` loop inside the transaction of
`recordProductUsage`: for each entry, re-reads the product with its in-use
lots (from the transaction's current state), fails when the product is
missing or has no in-use lot, creates a `RelatedProductUsage` row referencing
the oldest in-use lot, and decrements that lot's `currentAmount` by the
entry's amount (no quantity check).
-/
def relatedLoop (usageId : Nat) : List RelatedEntry → DB → Except UErr DB
  | [], db => .ok db
  | e :: rest, db =>
    match findProduct db e.productId with
    | none => .error .relatedUnavailable
    | some _ =>
      match oldestInUseLot db e.productId with
      | none => .error .relatedUnavailable
      | some relLot =>
        let row : RelatedUsageRec :=
          { id := db.nextId, usageId := usageId, productId := e.productId,
            amount := e.amount, defaultAmount := e.defaultAmount,
            isCustomAmount := e.isCustomAmount.getD false, role := e.role,
            order := e.order.getD 0, usedLotId := relLot.id }
        let db1 : DB :=
          { db with relatedUsages := db.relatedUsages ++ [row],
                    nextId := db.nextId + 1 }
        match decLotAmount db1 relLot.id e.amount with
        | .error err => .error err
        | .ok db2 => relatedLoop usageId rest db2

/--
Body of the `prisma.$transaction(async tx => ...)` of `recordProductUsage`:
creates the `Usage` row referencing the pre-selected lot, decrements that
lot, runs the related-products loop, bumps the primary product's
`usageCount`/`lastUsed` and appends the activity row.
-/
def usageTxBody (p : RecordUsageParams) (st : ServiceType) (usedLotId : Nat)
    (db : DB) : Except UErr (UsageRec × DB) :=
  let usage : UsageRec :=
    { id := db.nextId, date := db.now, usageAmount := p.usageAmount,
      defaultAmount := p.defaultAmount, nailLength := p.nailLength,
      isCustomAmount := p.isCustomAmount, isGelService := st.isGelService,
      serviceTypeId := p.serviceTypeId, productId := p.productId,
      usedLotId := usedLotId, note := p.note }
  let db1 : DB :=
    { db with usages := db.usages ++ [usage], nextId := db.nextId + 1 }
  match decLotAmount db1 usedLotId p.usageAmount with
  | .error err => .error err
  | .ok db2 =>
    match relatedLoop usage.id p.relatedProducts db2 with
    | .error err => .error err
    | .ok db3 =>
      let db4 : DB :=
        { db3 with products := db3.products.map (fun q =>
            if q.id == p.productId then
              { q with usageCount := q.usageCount + 1, lastUsed := some db3.now }
            else q) }
      let db5 : DB :=
        { db4 with activities := db4.activities ++
            [{ userId := p.recordedBy, activityType := "INVENTORY",
               action := "RECORD_USAGE" }] }
      .ok (usage, db5)

/--
`recordProductUsage`: checks (reads only) that the product exists, that it has
an in-use lot (else `OutOfStock`), that the service type and the user exist,
and that the selected oldest in-use lot has `currentAmount ≥ usageAmount`
whenever its amount is non-null; then runs the transaction body, keeping the
original state when the body fails (rollback).
-/
def recordProductUsage (p : RecordUsageParams) (db : DB) : Except UErr UsageRec × DB :=
  match findProduct db p.productId with
  | none => (.error .productNotFound, db)
  | some _ =>
    match oldestInUseLot db p.productId with
    | none => (.error .outOfStock, db)
    | some usedLot =>
      match findServiceType db p.serviceTypeId with
      | none => (.error .serviceTypeNotFound, db)
      | some st =>
        if !userExists db p.recordedBy then
          (.error .userNotFound, db)
        else
          match usedLot.currentAmount with
          | some c =>
            if c < p.usageAmount then
              (.error .insufficientQuantity, db)
            else
              match usageTxBody p st usedLot.id db with
              | .error err => (.error err, db)
              | .ok (u, db') => (.ok u, db')
          | none =>
            match usageTxBody p st usedLot.id db with
            | .error err => (.error err, db)
            | .ok (u, db') => (.ok u, db')

/-- `Math.round` (round half towards +∞, as in JavaScript). -/
def jsRound (x : ℚ) : ℤ := ⌊x + 1 / 2⌋

/-- `parseFloat(x.toFixed(2))` for the non-negative amounts used here:
round to two decimal places. -/
def roundTo2 (x : ℚ) : ℚ := (jsRound (x * 100) : ℚ) / 100

/--
`calculateAdjustedUsageAmount`: picks the length rate for the nail length,
replaces it by `Math.round(rate * designUsageRate)` when `designUsageRate` is
truthy (present and non-zero), and returns `baseAmount * rate / 100` rounded
to two decimals.
-/
def calculateAdjustedUsageAmount (st : ServiceType) (baseAmount : ℚ)
    (nailLength : NailLength) : ℚ :=
  let ratePercentage : ℤ :=
    match nailLength with
    | .SHORT => st.shortLengthRate
    | .MEDIUM => st.mediumLengthRate
    | .LONG => st.longLengthRate
  let rate : ℤ :=
    match st.designUsageRate with
    | some d => if d = 0 then ratePercentage else jsRound ((ratePercentage : ℚ) * d)
    | none => ratePercentage
  roundTo2 (baseAmount * ((rate : ℚ) / 100))

/--
`updateMonthlyStats`: derives `(year, month)` from the date
(`getFullYear`, `getMonth() + 1`); updates the existing
`(serviceTypeId, year, month)` row in place (`totalUsage += amount`,
`usageCount += 1`, `averageUsage` recomputed) or creates a fresh row
`(amount, 1, amount)`.
-/
def updateMonthlyStats (db : DB) (serviceTypeId : Nat) (usageAmount : ℚ)
    (date : DateRec) : DB :=
  let year := date.year
  let month := date.monthIndex + 1
  match findStat db serviceTypeId year month with
  | some s =>
    { db with monthlyStats := db.monthlyStats.map (fun r =>
        if r.id == s.id then
          { r with totalUsage := s.totalUsage + usageAmount,
                   usageCount := s.usageCount + 1,
                   averageUsage := (s.totalUsage + usageAmount) / (s.usageCount + 1 : ℚ) }
        else r) }
  | none =>
    { db with
        monthlyStats := db.monthlyStats ++
          [{ id := db.nextId, serviceTypeId := serviceTypeId, year := year,
             month := month, totalUsage := usageAmount, usageCount := 1,
             averageUsage := usageAmount }],
        nextId := db.nextId + 1 }

/-! ## Generic helper lemmas -/

/-- `find?` commutes with a map that does not change the search key. -/
theorem find_map_key {α : Type} (f : α → α) (p : α → Bool)
    (hp : ∀ x, p (f x) = p x) :
    ∀ l : List α, (l.map f).find? p = (l.find? p).map f := by
  intro l
  induction l with
  | nil => rfl
  | cons a t ih =>
    simp only [List.map_cons, List.find?_cons]
    rw [hp a]
    cases h : p a <;> simp [ih]

/-- `find?` over an append. -/
theorem find_append {α : Type} (p : α → Bool) :
    ∀ l₁ l₂ : List α, (l₁ ++ l₂).find? p =
      match l₁.find? p with
      | some a => some a
      | none => l₂.find? p := by
  intro l₁ l₂
  induction l₁ with
  | nil => rfl
  | cons a t ih =>
    simp only [List.cons_append, List.find?_cons]
    cases h : p a <;> simp [ih]

/-! ## Lot signatures: everything about a lot except its `currentAmount` -/

/-- The fields of a lot that `recordProductUsage` never writes. -/
def lotSig (l : Lot) : Nat × Nat × Bool × Option Nat :=
  (l.id, l.productId, l.isInUse, l.startedAt)

theorem lotSig_fields {a b : Lot} (h : lotSig a = lotSig b) :
    a.id = b.id ∧ a.productId = b.productId ∧ a.isInUse = b.isInUse ∧
    a.startedAt = b.startedAt := by
  simpa [lotSig, Prod.ext_iff] using h

theorem lotSig_id {a b : Lot} (h : lotSig a = lotSig b) : a.id = b.id :=
  (lotSig_fields h).1

theorem lotKey_sig {a b : Lot} (h : lotSig a = lotSig b) : lotKey a = lotKey b := by
  have := (lotSig_fields h).2.2.2
  simp [lotKey, this]

/-- Two lists of lots with the same signatures have sig-equal in-use filters. -/
theorem filter_inuse_sig (q : Nat) :
    ∀ {a b : List Lot}, a.map lotSig = b.map lotSig →
      (a.filter (fun l => l.productId == q && l.isInUse)).map lotSig =
      (b.filter (fun l => l.productId == q && l.isInUse)).map lotSig := by
  intro a
  induction a with
  | nil =>
    intro b h
    cases b with
    | nil => rfl
    | cons y s => simp at h
  | cons x t ih =>
    intro b h
    cases b with
    | nil => simp at h
    | cons y s =>
      simp only [List.map_cons, List.cons.injEq] at h
      obtain ⟨hxy, hts⟩ := h
      obtain ⟨-, hpid, hinuse, -⟩ := lotSig_fields hxy
      simp only [List.filter_cons, hpid, hinuse]
      cases hc : (y.productId == q && y.isInUse) <;>
        simp [hc, ih hts, hxy]

/-- `oldestFold` respects lot signatures. -/
theorem oldestFold_sig :
    ∀ {a b : List Lot}, a.map lotSig = b.map lotSig →
      ∀ {acc acc' : Option Lot}, acc.map lotSig = acc'.map lotSig →
        (oldestFold acc a).map lotSig = (oldestFold acc' b).map lotSig := by
  intro a
  induction a with
  | nil =>
    intro b h acc acc' hacc
    cases b with
    | nil => simpa [oldestFold] using hacc
    | cons y s => simp at h
  | cons x t ih =>
    intro b h acc acc' hacc
    cases b with
    | nil => simp at h
    | cons y s =>
      simp only [List.map_cons, List.cons.injEq] at h
      obtain ⟨hxy, hts⟩ := h
      simp only [oldestFold]
      apply ih hts
      cases acc with
      | none =>
        cases acc' with
        | none => simpa [oldestStep] using hxy
        | some m' => simp at hacc
      | some m =>
        cases acc' with
        | none => simp at hacc
        | some m' =>
          have hmm : lotSig m = lotSig m' := by simpa using hacc
          simp only [oldestStep]
          rw [lotKey_sig hxy, lotKey_sig hmm]
          by_cases hlt : lotKey y < lotKey m'
          · simp only [if_pos hlt]
            simpa using hxy
          · simp only [if_neg hlt]
            simpa using hmm

/-- `oldestInUseLot` respects lot signatures. -/
theorem oldestInUseLot_sig {db db' : DB} (q : Nat)
    (h : db.lots.map lotSig = db'.lots.map lotSig) :
    (oldestInUseLot db q).map lotSig = (oldestInUseLot db' q).map lotSig := by
  unfold oldestInUseLot inUseLots
  exact oldestFold_sig (filter_inuse_sig q h) rfl

/-- The running minimum returns a list member (or the accumulator) whose key
is minimal among the list and the accumulator. -/
theorem oldestFold_spec :
    ∀ (ls : List Lot) (acc : Option Lot) (m : Lot),
      oldestFold acc ls = some m →
      (m ∈ ls ∨ acc = some m) ∧ (∀ l ∈ ls, lotKey m ≤ lotKey l) ∧
      (∀ a, acc = some a → lotKey m ≤ lotKey a) := by
  intro ls
  induction ls with
  | nil =>
    intro acc m h
    simp only [oldestFold] at h
    exact ⟨Or.inr h, by simp, fun a ha => by rw [h] at ha; cases ha; exact le_refl _⟩
  | cons x t ih =>
    intro acc m h
    simp only [oldestFold] at h
    obtain ⟨hmem, hmin, hacc⟩ := ih (oldestStep acc x) m h
    have hstep : lotKey m ≤ lotKey x ∧ (∀ a, acc = some a → lotKey m ≤ lotKey a) ∧
        (m ∈ t ∨ m = x ∨ acc = some m) := by
      cases acc with
      | none =>
        have hs : oldestStep none x = some x := rfl
        rw [hs] at hmem hacc
        refine ⟨hacc x rfl, ?_, ?_⟩
        · intro a ha
          cases ha
        · rcases hmem with hm | hm
          · exact Or.inl hm
          · exact Or.inr (Or.inl (Option.some.inj hm).symm)
      | some a =>
        by_cases hlt : lotKey x < lotKey a
        · have hs : oldestStep (some a) x = some x := by
            simp [oldestStep, if_pos hlt]
          rw [hs] at hmem hacc
          have hmx : lotKey m ≤ lotKey x := hacc x rfl
          refine ⟨hmx, fun b hb => by cases hb; exact hmx.trans (le_of_lt hlt), ?_⟩
          rcases hmem with hm | hm
          · exact Or.inl hm
          · exact Or.inr (Or.inl (Option.some.inj hm).symm)
        · have hs : oldestStep (some a) x = some a := by
            simp [oldestStep, if_neg hlt]
          rw [hs] at hmem hacc
          have hma : lotKey m ≤ lotKey a := hacc a rfl
          refine ⟨hma.trans (le_of_not_lt hlt), fun b hb => by cases hb; exact hma, ?_⟩
          rcases hmem with hm | hm
          · exact Or.inl hm
          · exact Or.inr (Or.inr hm)
    refine ⟨?_, ?_, hstep.2.1⟩
    · rcases hstep.2.2 with hm | hm | hm
      · exact Or.inl (List.mem_cons_of_mem _ hm)
      · subst hm
        exact Or.inl (List.mem_cons_self _ _)
      · exact Or.inr hm
    · intro l hl
      rcases List.mem_cons.mp hl with h1 | h2
      · subst h1
        exact hstep.1
      · exact hmin l h2

/-- A lot selected by `oldestInUseLot` is an in-use lot of the product with
minimal `startedAt` key among them. -/
theorem oldestInUseLot_spec {db : DB} {q : Nat} {m : Lot}
    (h : oldestInUseLot db q = some m) :
    m ∈ db.lots ∧ m.productId = q ∧ m.isInUse = true ∧
    (∀ l ∈ inUseLots db q, lotKey m ≤ lotKey l) := by
  obtain ⟨hmem, hmin, -⟩ := oldestFold_spec _ _ _ h
  rcases hmem with hm | hm
  · have := List.mem_filter.mp hm
    obtain ⟨hl, hcond⟩ := this
    have hc := hcond
    simp only [Bool.and_eq_true, beq_iff_eq] at hc
    exact ⟨hl, hc.1, hc.2, hmin⟩
  · cases hm

/-- `oldestInUseLot` is `none` exactly when the in-use lot list is empty. -/
theorem oldestInUseLot_none_iff {db : DB} {q : Nat} :
    oldestInUseLot db q = none ↔ inUseLots db q = [] := by
  constructor
  · intro h
    cases hl : inUseLots db q with
    | nil => rfl
    | cons x s =>
      exfalso
      unfold oldestInUseLot at h
      rw [hl] at h
      have : ∀ (ls : List Lot) (a : Lot), oldestFold (some a) ls ≠ none := by
        intro ls
        induction ls with
        | nil => intro a hcon; cases hcon
        | cons z zs ih =>
          intro a hcon
          simp only [oldestFold, oldestStep] at hcon
          by_cases hlt : lotKey z < lotKey a
          · rw [if_pos hlt] at hcon; exact ih z hcon
          · rw [if_neg hlt] at hcon; exact ih a hcon
      simp only [oldestFold, oldestStep] at h
      exact this s x h
  · intro h
    unfold oldestInUseLot
    rw [h]
    rfl

/-! ## Frame relations for the usage transaction -/

/-- A lot of the base state is *not selected* when it is not the oldest
in-use lot of its own product there. -/
def notSelected (db : DB) (l : Lot) : Prop :=
  ∀ m, oldestInUseLot db l.productId = some m → m.id ≠ l.id

/-- Frame relation between a lot of the base state `db` and the corresponding
lot of an updated state, relative to the set `pids` of participating product
ids: the signature (id, product, `isInUse`, `startedAt`) is unchanged, and so
is `currentAmount` unless the base lot is the oldest in-use lot of its
product in `db` *and* that product participates. -/
def lotFrame (db : DB) (pids : List Nat) (l l' : Lot) : Prop :=
  lotSig l' = lotSig l ∧
  ((notSelected db l ∨ l.productId ∉ pids) →
    l'.currentAmount = l.currentAmount)

theorem forall2_lotFrame_refl (db : DB) (pids : List Nat) (ls : List Lot) :
    List.Forall₂ (lotFrame db pids) ls ls :=
  List.forall₂_same.mpr (fun _ _ => ⟨rfl, fun _ => rfl⟩)

theorem forall2_lotFrame_sig {db : DB} {pids : List Nat} :
    ∀ {as bs : List Lot}, List.Forall₂ (lotFrame db pids) as bs →
      bs.map lotSig = as.map lotSig := by
  intro as bs h
  induction h with
  | nil => rfl
  | cons hr _ ih => simp [ih, hr.1]

/-- Mapping the right list of a `Forall₂`, with membership available. -/
theorem forall2_map_right {α β : Type} {R S : α → β → Prop} (f : β → β) :
    ∀ {as : List α} {bs : List β}, List.Forall₂ R as bs →
      (∀ a b, b ∈ bs → R a b → S a (f b)) → List.Forall₂ S as (bs.map f) := by
  intro as bs h
  induction h with
  | nil => intro _; exact .nil
  | cons hr _ ih =>
    intro hstep
    exact .cons (hstep _ _ (List.mem_cons_self _ _) hr)
      (ih (fun a b hb hrel => hstep a b (List.mem_cons_of_mem _ hb) hrel))

/-- Characterization of a successful `decLotAmount`. -/
theorem decLotAmount_ok {db db' : DB} {lotId : Nat} {amt : ℚ}
    (h : decLotAmount db lotId amt = .ok db') :
    db'.lots = db.lots.map (fun l' =>
        if l'.id == lotId then
          { l' with currentAmount := l'.currentAmount.map (fun a => a - amt) }
        else l') ∧
    db'.stores = db.stores ∧ db'.users = db.users ∧ db'.products = db.products ∧
    db'.serviceTypes = db.serviceTypes ∧ db'.usages = db.usages ∧
    db'.relatedUsages = db.relatedUsages ∧ db'.activities = db.activities ∧
    db'.monthlyStats = db.monthlyStats ∧ db'.nextId = db.nextId ∧
    db'.now = db.now := by
  unfold decLotAmount at h
  split at h
  · cases h
  · split at h
    · cases h
    · cases h
      exact ⟨rfl, rfl, rfl, rfl, rfl, rfl, rfl, rfl, rfl, rfl, rfl⟩

/-- `decLotAmount` can only fail with the null-decrement database error. -/
theorem decLotAmount_error {db : DB} {lotId : Nat} {amt : ℚ} {e : UErr}
    (h : decLotAmount db lotId amt = .error e) : e = .decrementOnNull := by
  unfold decLotAmount at h
  split at h
  · cases h
    rfl
  · split at h
    · cases h
      rfl
    · cases h

/-- Existence of the oldest in-use lot transports along sig-equality of the
lot lists. -/
theorem oldestInUseLot_sig_some {dbA dbB : DB} {q : Nat} {m : Lot}
    (hsig : dbA.lots.map lotSig = dbB.lots.map lotSig)
    (h : oldestInUseLot dbB q = some m) :
    ∃ m₀, oldestInUseLot dbA q = some m₀ ∧ lotSig m₀ = lotSig m := by
  have hc := oldestInUseLot_sig q hsig
  rw [h] at hc
  cases ha : oldestInUseLot dbA q with
  | none =>
    rw [ha] at hc
    cases hc
  | some m₀ =>
    rw [ha] at hc
    exact ⟨m₀, rfl, by simpa using hc⟩

/-- The pointwise frame step for decrementing the lot selected as oldest
in-use lot of a participating product: any base lot that is not selected, or
whose product does not participate, keeps its amount. -/
theorem lotFrame_dec_step (db₀ db : DB) (pids : List Nat) {q : Nat}
    {relLot : Lot} {amt : ℚ}
    (hnd : (db₀.lots.map (fun l => l.id)).Nodup)
    (hqmem : q ∈ pids)
    (hF : List.Forall₂ (lotFrame db₀ pids) db₀.lots db.lots)
    (hsel : oldestInUseLot db q = some relLot) :
    ∀ a b, b ∈ db.lots → lotFrame db₀ pids a b →
      lotFrame db₀ pids a (if b.id == relLot.id then
        { b with currentAmount := b.currentAmount.map (fun x => x - amt) }
      else b) := by
  intro a b hb hab
  have hsig : lotSig (if b.id == relLot.id then
      { b with currentAmount := b.currentAmount.map (fun x => x - amt) }
    else b) = lotSig b := by
    by_cases hid : b.id = relLot.id
    · simp [lotSig, hid]
    · simp [hid]
  refine ⟨hsig.trans hab.1, ?_⟩
  intro hns
  by_cases hid : b.id = relLot.id
  · exfalso
    obtain ⟨hmem, hq, -, -⟩ := oldestInUseLot_spec hsel
    have hsigs : db₀.lots.map lotSig = db.lots.map lotSig :=
      (forall2_lotFrame_sig hF).symm
    have hndB : (db.lots.map (fun l => l.id)).Nodup := by
      have h1 := congrArg
        (List.map (fun s : Nat × Nat × Bool × Option Nat => s.1)) hsigs
      rw [List.map_map, List.map_map] at h1
      have h2 : db₀.lots.map (fun l => l.id) = db.lots.map (fun l => l.id) := by
        simpa [Function.comp, lotSig] using h1
      rwa [h2] at hnd
    have hbrel : b = relLot :=
      List.inj_on_of_nodup_map hndB hb hmem hid
    subst hbrel
    have hapid : a.productId = b.productId := (lotSig_fields hab.1).2.1.symm
    have haid : a.id = b.id := (lotSig_fields hab.1).1.symm
    rcases hns with hns | hnp
    · obtain ⟨m₀, hm₀, hm₀sig⟩ := oldestInUseLot_sig_some hsigs hsel
      simp only [notSelected, hapid, hq] at hns
      exact hns m₀ hm₀ (by rw [lotSig_id hm₀sig, ← haid])
    · rw [hapid, hq] at hnp
      exact hnp hqmem
  · simp only [beq_iff_eq, if_neg hid]
    exact hab.2 hns

/-- Invariants of the related-products loop: on success the lot signatures
are unchanged, lots that are not the selected lot of a participating product
keep their amounts, no collection other than `relatedUsages` gains or loses
rows, and every processed entry's product had an in-use lot in the base
state. `pids` over-approximates the product ids of the processed entries. -/
theorem relatedLoop_ok (db₀ : DB) (hnd : (db₀.lots.map (fun l => l.id)).Nodup)
    (pids : List Nat) :
    ∀ (es : List RelatedEntry) (uid : Nat) (db db' : DB),
      (∀ e ∈ es, e.productId ∈ pids) →
      List.Forall₂ (lotFrame db₀ pids) db₀.lots db.lots →
      relatedLoop uid es db = .ok db' →
      List.Forall₂ (lotFrame db₀ pids) db₀.lots db'.lots ∧
      db'.stores = db.stores ∧ db'.users = db.users ∧
      db'.products = db.products ∧ db'.serviceTypes = db.serviceTypes ∧
      db'.usages = db.usages ∧ db'.activities = db.activities ∧
      db'.monthlyStats = db.monthlyStats ∧ db'.now = db.now ∧
      (∃ xs, db'.relatedUsages = db.relatedUsages ++ xs) ∧
      (∀ e ∈ es, (oldestInUseLot db₀ e.productId).isSome) := by
  intro es
  induction es with
  | nil =>
    intro uid db db' hpids hF h
    simp only [relatedLoop] at h
    cases h
    exact ⟨hF, rfl, rfl, rfl, rfl, rfl, rfl, rfl, rfl, ⟨[], by simp⟩, by simp⟩
  | cons e rest ih =>
    intro uid db db' hpids hF h
    simp only [relatedLoop] at h
    split at h
    · cases h
    · split at h
      · cases h
      · rename_i prod hfp relLot hol
        split at h
        · cases h
        · rename_i db2 hdec
          obtain ⟨hl, hst, hus, hpr, hsv, hug, hru, hac, hms, hni, hnw⟩ :=
            decLotAmount_ok hdec
          dsimp only at hl hst hus hpr hsv hug hru hac hms hni hnw
          have hF2 : List.Forall₂ (lotFrame db₀ pids) db₀.lots db2.lots := by
            rw [hl]
            exact forall2_map_right _ hF
              (lotFrame_dec_step db₀ db pids hnd
                (hpids e (List.mem_cons_self _ _)) hF hol)
          obtain ⟨hF', h1, h2, h3, h4, h5, h6, h7, h8, ⟨xs, hxs⟩, hrest⟩ :=
            ih uid db2 db'
              (fun x hx => hpids x (List.mem_cons_of_mem _ hx)) hF2 h
          have hsigs : db₀.lots.map lotSig = db.lots.map lotSig :=
            (forall2_lotFrame_sig hF).symm
          obtain ⟨m₀, hm₀, -⟩ := oldestInUseLot_sig_some hsigs hol
          refine ⟨hF', h1.trans hst, h2.trans hus, h3.trans hpr, h4.trans hsv,
            h5.trans hug, h6.trans hac, h7.trans hms, h8.trans hnw,
            ⟨_, by rw [hxs, hru, List.append_assoc]⟩, ?_⟩
          intro x hx
          rcases List.mem_cons.mp hx with hx1 | hx2
          · subst hx1
            rw [hm₀]
            rfl
          · exact hrest x hx2

/-- The related-products loop fails only on a missing/lot-less related
product or a null decrement — never with `insufficientQuantity`. -/
theorem relatedLoop_error :
    ∀ (es : List RelatedEntry) (uid : Nat) (db : DB) (e' : UErr),
      relatedLoop uid es db = .error e' →
      e' = .relatedUnavailable ∨ e' = .decrementOnNull := by
  intro es
  induction es with
  | nil =>
    intro uid db e' h
    simp only [relatedLoop] at h
    cases h
  | cons e rest ih =>
    intro uid db e' h
    simp only [relatedLoop] at h
    split at h
    · cases h
      exact Or.inl rfl
    · split at h
      · cases h
        exact Or.inl rfl
      · split at h
        · rename_i err hdec
          cases h
          exact Or.inr (decLotAmount_error hdec)
        · exact ih _ _ _ h

/-- Product-row frame of `recordProductUsage`: only the primary product's
`usageCount` and `lastUsed` change. -/
def productFrame (pid : Nat) (t : Nat) (q q' : Product) : Prop :=
  (q.id ≠ pid → q' = q) ∧
  (q.id = pid → q' = { q with usageCount := q.usageCount + 1, lastUsed := some t })

/-- Specification of a successful usage-transaction body. -/
theorem usageTxBody_ok {p : RecordUsageParams} {st : ServiceType}
    {usedLot : Lot} {db db' : DB} {u : UsageRec}
    (hnd : (db.lots.map (fun l => l.id)).Nodup)
    (hsel : oldestInUseLot db p.productId = some usedLot)
    (h : usageTxBody p st usedLot.id db = .ok (u, db')) :
    u.usedLotId = usedLot.id ∧ u.productId = p.productId ∧
    u.serviceTypeId = p.serviceTypeId ∧ u.date = db.now ∧
    u.usageAmount = p.usageAmount ∧
    db'.stores = db.stores ∧ db'.users = db.users ∧
    db'.serviceTypes = db.serviceTypes ∧ db'.monthlyStats = db.monthlyStats ∧
    db'.usages = db.usages ++ [u] ∧
    (∃ xs, db'.relatedUsages = db.relatedUsages ++ xs) ∧
    (∃ a, db'.activities = db.activities ++ [a]) ∧
    List.Forall₂
      (lotFrame db (p.productId :: p.relatedProducts.map (fun e => e.productId)))
      db.lots db'.lots ∧
    List.Forall₂ (productFrame p.productId db.now) db.products db'.products ∧
    (∀ e ∈ p.relatedProducts, (oldestInUseLot db e.productId).isSome) := by
  simp only [usageTxBody] at h
  split at h
  · cases h
  · rename_i db2 hdec
    split at h
    · cases h
    · rename_i db3 hloop
      cases h
      obtain ⟨hl, hst, hus, hpr, hsv, hug, hru, hac, hms, hni, hnw⟩ :=
        decLotAmount_ok hdec
      dsimp only at hl hst hus hpr hsv hug hru hac hms hni hnw
      have hF2 : List.Forall₂
          (lotFrame db (p.productId :: p.relatedProducts.map (fun e => e.productId)))
          db.lots db2.lots := by
        rw [hl]
        exact forall2_map_right _ (forall2_lotFrame_refl db _ db.lots)
          (lotFrame_dec_step db db _ hnd (List.mem_cons_self _ _)
            (forall2_lotFrame_refl db _ db.lots) hsel)
      obtain ⟨hF3, g1, g2, g3, g4, g5, g6, g7, g8, ⟨xs, hxs⟩, hrest⟩ :=
        relatedLoop_ok db hnd
          (p.productId :: p.relatedProducts.map (fun e => e.productId))
          p.relatedProducts _ db2 db3
          (fun e he => List.mem_cons_of_mem _ (List.mem_map_of_mem _ he))
          hF2 hloop
      dsimp only
      refine ⟨rfl, rfl, rfl, rfl, rfl, ?_, ?_, ?_, ?_, ?_, ?_, ?_, ?_, ?_, ?_⟩
      · exact g1.trans hst
      · exact g2.trans hus
      · exact g4.trans hsv
      · exact g7.trans hms
      · rw [g5, hug]
      · exact ⟨_, by rw [hxs, hru]⟩
      · exact ⟨_, by rw [g6, hac]⟩
      · exact hF3
      · have hp3 : db3.products = db.products := g3.trans hpr
        have hn3 : db3.now = db.now := g8.trans hnw
        rw [hp3, hn3]
        have hrefl : List.Forall₂ (fun q q' : Product => q = q')
            db.products db.products :=
          List.forall₂_same.mpr (fun q _ => rfl)
        apply forall2_map_right _ hrefl
        intro a b hb hab
        subst hab
        constructor
        · intro hne
          have hbe : (a.id == p.productId) = false := by
            simpa using hne
          simp [hbe]
        · intro heq
          have hbe : (a.id == p.productId) = true := by
            simpa using heq
          simp [hbe]
      · exact hrest

/-- The transaction body fails only with a related-product or null-decrement
error — never with `insufficientQuantity`. -/
theorem usageTxBody_error {p : RecordUsageParams} {st : ServiceType}
    {lid : Nat} {db : DB} {e : UErr}
    (h : usageTxBody p st lid db = .error e) :
    e = .relatedUnavailable ∨ e = .decrementOnNull := by
  simp only [usageTxBody] at h
  split at h
  · rename_i err hdec
    cases h
    exact Or.inr (decLotAmount_error hdec)
  · split at h
    · rename_i err hloop
      cases h
      exact relatedLoop_error _ _ _ _ hloop
    · cases h

/-- Rollback: whenever `recordProductUsage` fails, the returned state is the
input state — every write happens inside the transaction. -/
theorem recordProductUsage_error_pair {p : RecordUsageParams} {db db' : DB}
    {r : Except UErr UsageRec} {e : UErr}
    (h : recordProductUsage p db = (r, db')) (he : r = .error e) :
    db' = db := by
  subst he
  unfold recordProductUsage at h
  split at h
  · cases h
    rfl
  · split at h
    · cases h
      rfl
    · split at h
      · cases h
        rfl
      · split at h
        · cases h
          rfl
        · split at h
          · split at h
            · cases h
              rfl
            · split at h
              · cases h
                rfl
              · cases h
          · split at h
            · cases h
              rfl
            · cases h

/-- Projection form of the rollback lemma. -/
theorem recordProductUsage_error_state {p : RecordUsageParams} {db : DB}
    {e : UErr} (h : (recordProductUsage p db).1 = .error e) :
    (recordProductUsage p db).2 = db := by
  rcases hmk : recordProductUsage p db with ⟨r, db'⟩
  rw [hmk] at h
  exact recordProductUsage_error_pair hmk h

/-- A successful `recordProductUsage` decomposes into the pre-transaction
reads and a successful transaction body on the unchanged input state. -/
theorem recordProductUsage_ok {p : RecordUsageParams} {db db' : DB}
    {u : UsageRec} (h : recordProductUsage p db = (.ok u, db')) :
    ∃ usedLot st, oldestInUseLot db p.productId = some usedLot ∧
      findServiceType db p.serviceTypeId = some st ∧
      usageTxBody p st usedLot.id db = .ok (u, db') := by
  unfold recordProductUsage at h
  split at h
  · cases h
  · split at h
    · cases h
    · rename_i prod hfp usedLot hsel
      split at h
      · cases h
      · rename_i st hst
        split at h
        · cases h
        · split at h
          · split at h
            · cases h
            · split at h
              · cases h
              · rename_i hbody
                cases h
                exact ⟨usedLot, st, hsel, hst, hbody⟩
          · split at h
            · cases h
            · rename_i hbody
              cases h
              exact ⟨usedLot, st, hsel, hst, hbody⟩

/-- An `insufficientQuantity` failure always comes from the primary
product's selected lot being short. -/
theorem recordProductUsage_insufficient {p : RecordUsageParams} {db : DB}
    (h : (recordProductUsage p db).1 = .error .insufficientQuantity) :
    ∃ m c, oldestInUseLot db p.productId = some m ∧
      m.currentAmount = some c ∧ c < p.usageAmount := by
  unfold recordProductUsage at h
  split at h
  · cases h
  · split at h
    · cases h
    · rename_i prod hfp usedLot hsel
      split at h
      · cases h
      · split at h
        · cases h
        · split at h
          · rename_i c hc
            split at h
            · rename_i hlt
              exact ⟨usedLot, c, hsel, hc, hlt⟩
            · split at h
              · rename_i err hbody
                dsimp only at h
                cases h
                rcases usageTxBody_error hbody with h1 | h1 <;> cases h1
              · cases h
          · rename_i hc
            split at h
            · rename_i err hbody
              dsimp only at h
              cases h
              rcases usageTxBody_error hbody with h1 | h1 <;> cases h1
            · cases h

/-! ## Counting helpers and stock lemmas -/

/-- Number of `ProductLot` rows of a product. -/
def countLots (db : DB) (pid : Nat) : Nat :=
  (db.lots.filter (fun l => l.productId == pid)).length

/-- Number of in-use `ProductLot` rows of a product. -/
def countInUseLots (db : DB) (pid : Nat) : Nat :=
  (db.lots.filter (fun l => l.productId == pid && l.isInUse)).length

/-- Number of unused `ProductLot` rows of a product. -/
def countUnusedLots (db : DB) (pid : Nat) : Nat :=
  (db.lots.filter (fun l => l.productId == pid && !l.isInUse)).length

theorem mkUnusedLots_length (pid : Nat) :
    ∀ (s n : Nat), (mkUnusedLots pid s n).length = n := by
  intro s n
  induction n generalizing s with
  | zero => rfl
  | succ k ih => simp [mkUnusedLots, ih]

theorem mkUnusedLots_mem (pid : Nat) :
    ∀ {s n : Nat} {l : Lot}, l ∈ mkUnusedLots pid s n →
      l.productId = pid ∧ l.isInUse = false := by
  intro s n
  induction n generalizing s with
  | zero =>
    intro l h
    cases h
  | succ k ih =>
    intro l h
    rcases List.mem_cons.mp h with h1 | h2
    · subst h1
      exact ⟨rfl, rfl⟩
    · exact ih h2

/-! ## Spec-side formulation of the amount adjustment (spec §4.4) -/

/-- The length-rate percentage matching the nail length. -/
def lengthRateOf (st : ServiceType) (len : NailLength) : ℤ :=
  match len with
  | .SHORT => st.shortLengthRate
  | .MEDIUM => st.mediumLengthRate
  | .LONG => st.longLengthRate

/-- The effective rate: the length rate, multiplied by the design usage rate
and rounded to the nearest integer when the service type has one (the source
tests the field with JS truthiness, so a present-but-zero factor counts as
absent). -/
def specEffectiveRate (st : ServiceType) (len : NailLength) : ℤ :=
  match st.designUsageRate with
  | some d =>
    if d = 0 then lengthRateOf st len
    else jsRound ((lengthRateOf st len : ℚ) * d)
  | none => lengthRateOf st len

/-- `resolveAdjustedAmount` as worded in spec §4.4: pick the rate, apply the
design factor with integer rounding, return `baseAmount * rate / 100` rounded
to two decimals. -/
def resolveAdjustedAmount (st : ServiceType) (baseAmount : ℚ)
    (len : NailLength) : ℚ :=
  roundTo2 (baseAmount * ((specEffectiveRate st len : ℚ) / 100))

/-! ## Concrete instances used by witnesses and counterexamples -/

/-- A service type with the length rates of the spec's test vector
(80/100/150) and no design factor. -/
def stExample : ServiceType :=
  { id := 3, storeId := 0, isGelService := false,
    shortLengthRate := 80, mediumLengthRate := 100, longLengthRate := 150,
    designUsageRate := none }

/-- Store 0, user 1, service type 3; product 10 has two in-use lots
(20: 5 units opened at t=1, 21: 5 units opened at t=2), product 11 has one
in-use lot 22 with only 1/10 unit left. -/
def dbA : DB :=
  { stores := [0], users := [1],
    products := [{ id := 10, storeId := 0, totalQuantity := 2,
                   inUseQuantity := 2, lotQuantity := 0, usageCount := 0,
                   lastUsed := none },
                 { id := 11, storeId := 0, totalQuantity := 1,
                   inUseQuantity := 1, lotQuantity := 0, usageCount := 0,
                   lastUsed := none }],
    lots := [{ id := 20, productId := 10, isInUse := true,
               currentAmount := some 5, startedAt := some 1 },
             { id := 21, productId := 10, isInUse := true,
               currentAmount := some 5, startedAt := some 2 },
             { id := 22, productId := 11, isInUse := true,
               currentAmount := some (1/10), startedAt := some 1 }],
    serviceTypes := [stExample],
    usages := [], relatedUsages := [], activities := [], monthlyStats := [],
    nextId := 100, now := 50 }

/-- A usage of 1/2 unit of product 10 with one related entry consuming 1/2
unit of product 11 (whose lot only has 1/10 left). -/
def pA : RecordUsageParams :=
  { productId := 10, serviceTypeId := 3, usageAmount := 1/2,
    defaultAmount := none, nailLength := .MEDIUM, isCustomAmount := false,
    relatedProducts := [{ productId := 11, amount := 1/2,
                          defaultAmount := none, isCustomAmount := none,
                          role := none, order := none }],
    note := none, recordedBy := 1 }

/-- Like `pA` but referencing a missing related product, so the transaction
body fails after the primary lot was already decremented inside it. -/
def pFail : RecordUsageParams :=
  { productId := 10, serviceTypeId := 3, usageAmount := 1/2,
    defaultAmount := none, nailLength := .MEDIUM, isCustomAmount := false,
    relatedProducts := [{ productId := 99, amount := 1/2,
                          defaultAmount := none, isCustomAmount := none,
                          role := none, order := none }],
    note := none, recordedBy := 1 }

/-- Product 12 whose *oldest* in-use lot 25 (opened at t=1) is depleted
(`currentAmount = 0`) while the later lot 26 (opened at t=2) still holds 5. -/
def dbB : DB :=
  { stores := [0], users := [1],
    products := [{ id := 12, storeId := 0, totalQuantity := 2,
                   inUseQuantity := 2, lotQuantity := 0, usageCount := 0,
                   lastUsed := none }],
    lots := [{ id := 25, productId := 12, isInUse := true,
               currentAmount := some 0, startedAt := some 1 },
             { id := 26, productId := 12, isInUse := true,
               currentAmount := some 5, startedAt := some 2 }],
    serviceTypes := [stExample],
    usages := [], relatedUsages := [], activities := [], monthlyStats := [],
    nextId := 100, now := 50 }

/-- A usage of 1 unit of product 12, with no related products. -/
def pB : RecordUsageParams :=
  { productId := 12, serviceTypeId := 3, usageAmount := 1,
    defaultAmount := none, nailLength := .MEDIUM, isCustomAmount := false,
    relatedProducts := [], note := none, recordedBy := 1 }

/-- Product 30 with one unused lot 40 and consistent counters. -/
def dbC : DB :=
  { stores := [0], users := [1],
    products := [{ id := 30, storeId := 0, totalQuantity := 1,
                   inUseQuantity := 0, lotQuantity := 1, usageCount := 0,
                   lastUsed := none }],
    lots := [{ id := 40, productId := 30, isInUse := false,
               currentAmount := none, startedAt := none }],
    serviceTypes := [],
    usages := [], relatedUsages := [], activities := [], monthlyStats := [],
    nextId := 100, now := 50 }

/-- A store with no products yet. -/
def dbD : DB :=
  { stores := [0], users := [1], products := [], lots := [],
    serviceTypes := [], usages := [], relatedUsages := [], activities := [],
    monthlyStats := [], nextId := 100, now := 50 }

/-- The date 2025-05 (JS `getMonth() = 4`). -/
def dateExample : DateRec := { year := 2025, monthIndex := 4 }

/-- `relatedLoop` never touches the monthly statistics table. -/
theorem relatedLoop_stats :
    ∀ (es : List RelatedEntry) (uid : Nat) (db db' : DB),
      relatedLoop uid es db = .ok db' → db'.monthlyStats = db.monthlyStats := by
  intro es
  induction es with
  | nil =>
    intro uid db db' h
    simp only [relatedLoop] at h
    cases h
    rfl
  | cons e rest ih =>
    intro uid db db' h
    simp only [relatedLoop] at h
    split at h
    · cases h
    · split at h
      · cases h
      · split at h
        · cases h
        · rename_i db2 hdec
          have hms := (decLotAmount_ok hdec).2.2.2.2.2.2.2.2.1
          dsimp only at hms
          exact (ih _ _ _ h).trans hms

/-- The usage-transaction body never touches the monthly statistics table. -/
theorem usageTxBody_stats {p : RecordUsageParams} {st : ServiceType}
    {lid : Nat} {db db' : DB} {u : UsageRec}
    (h : usageTxBody p st lid db = .ok (u, db')) :
    db'.monthlyStats = db.monthlyStats := by
  simp only [usageTxBody] at h
  split at h
  · cases h
  · rename_i db2 hdec
    split at h
    · cases h
    · rename_i db3 hloop
      cases h
      have h1 := (decLotAmount_ok hdec).2.2.2.2.2.2.2.2.1
      dsimp only at h1
      exact (relatedLoop_stats _ _ _ _ hloop).trans h1

/-- Boolean success test on `Except` (used to state closed evaluations). -/
def exceptIsOk {ε α : Type} : Except ε α → Bool
  | .ok _ => true
  | .error _ => false

/-! ## Claim theorems -/

/--
**C8.** For every service type, base amount and nail length,
`calculateAdjustedUsageAmount` returns `baseAmount * rate / 100` rounded to
two decimal places, where the rate is the short/medium/long percentage
matching the nail length, first multiplied by `designUsageRate` and rounded
to the nearest integer when that factor is set (two-step rounding); in
particular, for a base amount of 0.5 with rates 80/100/150 and no design
factor the results are exactly 0.4, 0.5 and 0.75.
-/
theorem c8_adjusted_amount :
    (∀ (st : ServiceType) (b : ℚ) (len : NailLength),
      calculateAdjustedUsageAmount st b len = resolveAdjustedAmount st b len) ∧
    calculateAdjustedUsageAmount stExample (1/2) .SHORT = 0.4 ∧
    calculateAdjustedUsageAmount stExample (1/2) .MEDIUM = 0.5 ∧
    calculateAdjustedUsageAmount stExample (1/2) .LONG = 0.75 := by
  refine ⟨?_, ?_, ?_, ?_⟩
  · intro st b len
    cases len <;> cases h : st.designUsageRate <;>
      simp [calculateAdjustedUsageAmount, resolveAdjustedAmount,
        specEffectiveRate, lengthRateOf, h]
  · norm_num [calculateAdjustedUsageAmount, stExample, roundTo2, jsRound]
  · norm_num [calculateAdjustedUsageAmount, stExample, roundTo2, jsRound]
  · norm_num [calculateAdjustedUsageAmount, stExample, roundTo2, jsRound]

/--
**C9.** `updateMonthlyStats` keyed by `(serviceType, year(d), month(d))`
updates an existing row to `totalUsage + a`, `usageCount + 1` and
`averageUsage = totalUsage' / usageCount'`, or creates a row
`(a, 1, a)`; after every call the found row satisfies
`averageUsage = totalUsage / usageCount`.
-/
theorem c9_monthly_stats (db : DB) (stid : Nat) (a : ℚ) (d : DateRec) :
    (findStat db stid d.year (d.monthIndex + 1) = none →
      findStat (updateMonthlyStats db stid a d) stid d.year (d.monthIndex + 1) =
        some { id := db.nextId, serviceTypeId := stid, year := d.year,
               month := d.monthIndex + 1, totalUsage := a, usageCount := 1,
               averageUsage := a }) ∧
    (∀ s, findStat db stid d.year (d.monthIndex + 1) = some s →
      findStat (updateMonthlyStats db stid a d) stid d.year (d.monthIndex + 1) =
        some { s with totalUsage := s.totalUsage + a,
                      usageCount := s.usageCount + 1,
                      averageUsage := (s.totalUsage + a) / ((s.usageCount : ℚ) + 1) }) ∧
    (∀ r, findStat (updateMonthlyStats db stid a d) stid d.year
        (d.monthIndex + 1) = some r →
      r.averageUsage = r.totalUsage / (r.usageCount : ℚ)) := by
  have hbranch :
      (findStat db stid d.year (d.monthIndex + 1) = none →
        findStat (updateMonthlyStats db stid a d) stid d.year (d.monthIndex + 1) =
          some { id := db.nextId, serviceTypeId := stid, year := d.year,
                 month := d.monthIndex + 1, totalUsage := a, usageCount := 1,
                 averageUsage := a }) ∧
      (∀ s, findStat db stid d.year (d.monthIndex + 1) = some s →
        findStat (updateMonthlyStats db stid a d) stid d.year (d.monthIndex + 1) =
          some { s with totalUsage := s.totalUsage + a,
                        usageCount := s.usageCount + 1,
                        averageUsage := (s.totalUsage + a) / ((s.usageCount : ℚ) + 1) }) := by
    constructor
    · intro h
      simp only [updateMonthlyStats, h]
      unfold findStat at h ⊢
      dsimp only
      rw [find_append, h]
      simp
    · intro s hs
      simp only [updateMonthlyStats, hs]
      unfold findStat at hs ⊢
      dsimp only
      rw [find_map_key _ _ ?hp db.monthlyStats, hs]
      case hp =>
        intro x
        by_cases hx : (x.id == s.id) = true <;> simp [hx]
      have hself : (s.id == s.id) = true := by simp
      simp [hself]
    
  refine ⟨hbranch.1, hbranch.2, ?_⟩
  intro r hr
  cases hfind : findStat db stid d.year (d.monthIndex + 1) with
  | none =>
    have := hbranch.1 hfind
    rw [this] at hr
    cases hr
    simp
  | some s =>
    have := hbranch.2 s hfind
    rw [this] at hr
    cases hr
    push_cast
    ring

/-- Witness for **C9**: on an empty statistics table, a first usage of 0.6
yields `(0.6, 1, 0.6)` and a second usage of 0.4 yields `(1.0, 2, 0.5)`. -/
theorem c9_monthly_stats_witness :
    findStat dbD 7 2025 5 = none ∧
    findStat (updateMonthlyStats dbD 7 (0.6) dateExample) 7 2025 5 =
      some { id := 100, serviceTypeId := 7, year := 2025, month := 5,
             totalUsage := 0.6, usageCount := 1, averageUsage := 0.6 } ∧
    findStat (updateMonthlyStats (updateMonthlyStats dbD 7 (0.6) dateExample)
        7 (0.4) dateExample) 7 2025 5 =
      some { id := 100, serviceTypeId := 7, year := 2025, month := 5,
             totalUsage := 1, usageCount := 2, averageUsage := 0.5 } := by
  have h1 : findStat dbD 7 2025 5 = none := rfl
  have h2 := (c9_monthly_stats dbD 7 (0.6) dateExample).1 h1
  have h3 := (c9_monthly_stats (updateMonthlyStats dbD 7 (0.6) dateExample)
    7 (0.4) dateExample).2.1 _ h2
  exact ⟨h1, h2, h3.trans (by norm_num [dateExample, dbD,
    Option.some.injEq, MonthlyStat.mk.injEq])⟩

/--
**C7.** `createProduct` with `totalQuantity = n` against an existing store
persists the product with `lotQuantity = n`, `inUseQuantity = 0` and exactly
`n` unused `ProductLot` rows; when the owning store does not exist it fails
with NotFound and creates nothing.
-/
theorem c7_create_product (p : CreateProductParams) (db : DB) :
    (storeExists db p.storeId = false →
      createProduct p db = (.error .storeNotFound, db)) ∧
    (∀ prod db', createProduct p db = (.ok prod, db') →
      prod.lotQuantity = p.totalQuantity.getD 1 ∧
      prod.inUseQuantity = 0 ∧
      prod.totalQuantity = p.totalQuantity.getD 1 ∧
      prod.usageCount = 0 ∧
      db'.products = db.products ++ [prod] ∧
      ((∀ l ∈ db.lots, l.productId ≠ prod.id) →
        countUnusedLots db' prod.id = p.totalQuantity.getD 1 ∧
        countLots db' prod.id = p.totalQuantity.getD 1)) := by
  constructor
  · intro h
    simp [createProduct, h]
  · intro prod db' h
    simp only [createProduct] at h
    split at h
    · cases h
    · cases h
      refine ⟨rfl, rfl, rfl, rfl, rfl, ?_⟩
      intro hfresh
      dsimp only
      constructor
      · unfold countUnusedLots
        dsimp only
        rw [List.filter_append]
        have hold : db.lots.filter
            (fun l => l.productId == db.nextId && !l.isInUse) = [] := by
          rw [List.filter_eq_nil_iff]
          intro l hl
          have := hfresh l hl
          simp only [Bool.and_eq_true, beq_iff_eq]
          intro hcon
          exact this hcon.1
        have hnew : (mkUnusedLots db.nextId (db.nextId + 1)
              (p.totalQuantity.getD 1)).filter
            (fun l => l.productId == db.nextId && !l.isInUse) =
            mkUnusedLots db.nextId (db.nextId + 1) (p.totalQuantity.getD 1) := by
          rw [List.filter_eq_self]
          intro l hl
          obtain ⟨h1, h2⟩ := mkUnusedLots_mem _ hl
          simp [h1, h2]
        rw [hold, hnew, List.nil_append, mkUnusedLots_length]
      · unfold countLots
        dsimp only
        rw [List.filter_append]
        have hold : db.lots.filter (fun l => l.productId == db.nextId) = [] := by
          rw [List.filter_eq_nil_iff]
          intro l hl
          have := hfresh l hl
          simp only [beq_iff_eq]
          exact this
        have hnew : (mkUnusedLots db.nextId (db.nextId + 1)
              (p.totalQuantity.getD 1)).filter
            (fun l => l.productId == db.nextId) =
            mkUnusedLots db.nextId (db.nextId + 1) (p.totalQuantity.getD 1) := by
          rw [List.filter_eq_self]
          intro l hl
          obtain ⟨h1, -⟩ := mkUnusedLots_mem _ hl
          simp [h1]
        rw [hold, hnew, List.nil_append, mkUnusedLots_length]

/-- Witness for **C7**: creating a product with `totalQuantity = 3` in the
store of `dbD` yields `lotQuantity = 3`, `inUseQuantity = 0` and exactly 3
unused lots (and 3 lots in total). -/
theorem c7_create_product_witness :
    ∃ prod db', createProduct { totalQuantity := some 3, storeId := 0 } dbD =
        (.ok prod, db') ∧
      prod.lotQuantity = 3 ∧ prod.inUseQuantity = 0 ∧
      countUnusedLots db' prod.id = 3 ∧ countLots db' prod.id = 3 := by
  have h := (c7_create_product { totalQuantity := some 3, storeId := 0 } dbD).2
    _ _ rfl
  obtain ⟨h1, h2, h3, h4, h5, h6⟩ := h
  obtain ⟨h7, h8⟩ := h6 (by decide)
  exact ⟨_, _, rfl, h1, h2, h7, h8⟩

/-- Characterization of a successful `addProductStock`: one lot is appended
and the matching product's counters are incremented by `quantity`. -/
theorem addProductStock_ok {p : AddStockParams} {db : DB} {lot : Lot}
    {db' : DB} (h : addProductStock p db = (.ok lot, db')) :
    db'.lots = db.lots ++ [lot] ∧ lot.productId = p.productId ∧
    lot.isInUse = p.isInUse ∧
    (∀ q, findProduct db p.productId = some q →
      findProduct db' p.productId = some
        { q with
            totalQuantity := q.totalQuantity + p.quantity,
            lotQuantity := q.lotQuantity + (if p.isInUse then 0 else p.quantity),
            inUseQuantity := q.inUseQuantity + (if p.isInUse then p.quantity else 0) }) := by
  simp only [addProductStock] at h
  split at h
  · cases h
  · split at h
    · cases h
    · cases h
      refine ⟨rfl, rfl, rfl, ?_⟩
      intro q hq
      unfold findProduct at hq ⊢
      dsimp only
      rw [find_map_key _ _ ?hp db.products, hq]
      case hp =>
        intro x
        by_cases hx : (x.id == p.productId) = true <;> simp [hx]
      have hqid : q.id = p.productId := by
        simpa using List.find?_some hq
      simp [hqid]

/--
**C5 (amended).** A successful `addProductStock` creates exactly one lot
while incrementing the product's counters by `quantity`; consequently the
correspondence between counters and the lot set is preserved precisely when
`quantity = 1` (the case exercised by the repository's flows): for any other
quantity `totalQuantity` diverges from the number of lot rows (see the
counterexample).
-/
theorem c5_add_stock_amended (p : AddStockParams) (db : DB) (lot : Lot)
    (db' : DB) (h : addProductStock p db = (.ok lot, db')) :
    db'.lots = db.lots ++ [lot] ∧ lot.productId = p.productId ∧
    (∀ q, findProduct db p.productId = some q →
      findProduct db' p.productId = some
        { q with
            totalQuantity := q.totalQuantity + p.quantity,
            lotQuantity := q.lotQuantity + (if p.isInUse then 0 else p.quantity),
            inUseQuantity := q.inUseQuantity + (if p.isInUse then p.quantity else 0) }) ∧
    (p.quantity = 1 → ∀ q, findProduct db p.productId = some q →
      countLots db p.productId = q.totalQuantity →
      countInUseLots db p.productId = q.inUseQuantity →
      countUnusedLots db p.productId = q.lotQuantity →
      ∃ q', findProduct db' p.productId = some q' ∧
        countLots db' p.productId = q'.totalQuantity ∧
        countInUseLots db' p.productId = q'.inUseQuantity ∧
        countUnusedLots db' p.productId = q'.lotQuantity) := by
  obtain ⟨hlots, hpid, hinuse, hfind⟩ := addProductStock_ok h
  refine ⟨hlots, hpid, hfind, ?_⟩
  intro hq1 q hq hc1 hc2 hc3
  refine ⟨_, hfind q hq, ?_, ?_, ?_⟩
  · unfold countLots at hc1 ⊢
    rw [hlots, List.filter_append, List.length_append, hc1, hq1]
    simp [hpid]
  · unfold countInUseLots at hc2 ⊢
    rw [hlots, List.filter_append, List.length_append, hc2, hq1]
    by_cases hu : p.isInUse <;> simp [hu, hpid, hinuse]
  · unfold countUnusedLots at hc3 ⊢
    rw [hlots, List.filter_append, List.length_append, hc3, hq1]
    by_cases hu : p.isInUse <;> simp [hu, hpid, hinuse]

/-- Adding 2 units of stock to product 30 (one lot, consistent counters). -/
def pC5two : AddStockParams :=
  { productId := 30, quantity := 2, currentAmount := none, isInUse := false,
    addedBy := 1 }

/-- Adding 1 unit of stock to product 30. -/
def pC5one : AddStockParams :=
  { productId := 30, quantity := 1, currentAmount := none, isInUse := false,
    addedBy := 1 }

/-- Counterexample to **C5** as stated: starting from consistent counters
(1 lot row, `totalQuantity = 1`), `addProductStock` with `quantity = 2`
creates a single lot row but increments `totalQuantity` by 2, so afterwards
the product has 2 lot rows and `totalQuantity = 3`. -/
theorem c5_add_stock_counterexample :
    countLots dbC 30 = 1 ∧ countInUseLots dbC 30 = 0 ∧
    countUnusedLots dbC 30 = 1 ∧
    findProduct dbC 30 = some
      { id := 30, storeId := 0, totalQuantity := 1, inUseQuantity := 0,
        lotQuantity := 1, usageCount := 0, lastUsed := none } ∧
    exceptIsOk (addProductStock pC5two dbC).1 = true ∧
    findProduct (addProductStock pC5two dbC).2 30 = some
      { id := 30, storeId := 0, totalQuantity := 3, inUseQuantity := 0,
        lotQuantity := 3, usageCount := 0, lastUsed := none } ∧
    countLots (addProductStock pC5two dbC).2 30 = 2 ∧ (2 : Nat) ≠ 3 := by
  decide

/-- Witness for the amended **C5**: with `quantity = 1` the three
counter/lot-set equalities survive the call. -/
theorem c5_add_stock_amended_witness :
    ∃ q', findProduct (addProductStock pC5one dbC).2 30 = some q' ∧
      countLots (addProductStock pC5one dbC).2 30 = q'.totalQuantity ∧
      countInUseLots (addProductStock pC5one dbC).2 30 = q'.inUseQuantity ∧
      countUnusedLots (addProductStock pC5one dbC).2 30 = q'.lotQuantity := by
  obtain ⟨l, d, hld⟩ : ∃ l d, addProductStock pC5one dbC = (.ok l, d) :=
    ⟨_, _, rfl⟩
  have h4 := (c5_add_stock_amended pC5one dbC l d hld).2.2.2 rfl _ rfl rfl rfl rfl
  rw [hld]
  exact h4

/--
**C6 (amended).** `recordProductUsage` always selects the oldest in-use lot,
depleted or not: when the product's oldest in-use lot has
`currentAmount = 0` and the requested amount is positive, the call fails
with InsufficientQuantity instead of skipping to a later, non-depleted lot
(nothing ever clears `isInUse` on depletion, so the depleted lot stays
selectable).
-/
theorem c6_depleted_amended (db : DB) (p : RecordUsageParams)
    (prod : Product) (st : ServiceType) (m : Lot)
    (h1 : findProduct db p.productId = some prod)
    (h2 : oldestInUseLot db p.productId = some m)
    (h3 : m.currentAmount = some 0)
    (h4 : findServiceType db p.serviceTypeId = some st)
    (h5 : userExists db p.recordedBy = true)
    (h6 : 0 < p.usageAmount) :
    recordProductUsage p db = (.error .insufficientQuantity, db) := by
  simp only [recordProductUsage, h1, h2, h4, h5, h3]
  simp [h6]

/-- Counterexample to **C6** as stated: in `dbB` the oldest in-use lot of
product 12 is depleted while the later lot 26 holds 5 ≥ 1 units, yet a usage
of 1 unit fails instead of consuming from lot 26. -/
theorem c6_depleted_counterexample :
    (0 : ℚ) < pB.usageAmount ∧
    oldestInUseLot dbB 12 = some
      { id := 25, productId := 12, isInUse := true, currentAmount := some 0,
        startedAt := some 1 } ∧
    ({ id := 26, productId := 12, isInUse := true, currentAmount := some 5,
       startedAt := some 2 } : Lot) ∈ dbB.lots ∧
    pB.usageAmount ≤ 5 ∧
    exceptIsOk (recordProductUsage pB dbB).1 = false ∧
    (recordProductUsage pB dbB).2 = dbB := by
  refine ⟨by norm_num [pB], rfl, by decide, by norm_num [pB], ?_, ?_⟩
  · norm_num [recordProductUsage, usageTxBody, relatedLoop, decLotAmount,
      findProduct, findServiceType, oldestInUseLot, oldestFold, oldestStep,
      inUseLots, lotKey, userExists, dbB, pB, stExample, exceptIsOk,
      List.find?, List.filter]
  · norm_num [recordProductUsage, usageTxBody, relatedLoop, decLotAmount,
      findProduct, findServiceType, oldestInUseLot, oldestFold, oldestStep,
      inUseLots, lotKey, userExists, dbB, pB, stExample,
      List.find?, List.filter]

/-- Witness for the amended **C6**: the concrete scenario of `dbB`. -/
theorem c6_depleted_amended_witness :
    (0 : ℚ) < pB.usageAmount ∧
    recordProductUsage pB dbB = (.error .insufficientQuantity, dbB) := by
  have hpos : (0 : ℚ) < pB.usageAmount := by norm_num [pB]
  exact ⟨hpos, c6_depleted_amended dbB pB _ _ _ rfl rfl rfl rfl rfl hpos⟩

/--
**C3 (amended).** `recordProductUsage` never triggers the monthly-statistics
update: for every call (successful or not) the `MonthlyServiceStat` table is
unchanged — `updateMonthlyStats` runs only when a caller invokes it
separately (its doc comment says "call after recording usage", and no code
in the repository does so).
-/
theorem c3_no_stats_update_amended (p : RecordUsageParams) (db : DB) :
    ((recordProductUsage p db).2).monthlyStats = db.monthlyStats := by
  rcases hmk : recordProductUsage p db with ⟨r, db'⟩
  cases r with
  | error e =>
    rw [recordProductUsage_error_pair hmk rfl]
  | ok u =>
    obtain ⟨lot, st, -, -, hbody⟩ := recordProductUsage_ok hmk
    exact usageTxBody_stats hbody

/-- Counterexample to **C3** as stated: a successful usage recording on a
state with an empty statistics table leaves the table empty — no monthly
stat row for the usage's service type and date is created. -/
theorem c3_no_stats_update_counterexample :
    dbA.monthlyStats = [] ∧
    exceptIsOk (recordProductUsage pA dbA).1 = true ∧
    (recordProductUsage pA dbA).2.monthlyStats = [] := by
  refine ⟨rfl, ?_, ?_⟩
  · norm_num [recordProductUsage, usageTxBody, relatedLoop, decLotAmount,
      findProduct, findServiceType, oldestInUseLot, oldestFold, oldestStep,
      inUseLots, lotKey, userExists, dbA, pA, stExample, exceptIsOk,
      List.find?, List.filter]
    rfl
  · norm_num [recordProductUsage, usageTxBody, relatedLoop, decLotAmount,
      findProduct, findServiceType, oldestInUseLot, oldestFold, oldestStep,
      inUseLots, lotKey, userExists, dbA, pA, stExample,
      List.find?, List.filter]
    rfl

/--
**C1.** Whenever `recordProductUsage` fails — missing primary product,
no in-use lot, missing service type or user, insufficient primary quantity,
or any related product missing or lot-less inside the transaction — the
state is exactly the input state: the selected lot keeps its
`currentAmount`, the product keeps its `usageCount`, and no `Usage` or
`RelatedProductUsage` row remains (full rollback, no partial decrement).
-/
theorem c1_usage_failure_rollback (p : RecordUsageParams) (db : DB)
    (e : UErr) (h : (recordProductUsage p db).1 = .error e) :
    (recordProductUsage p db).2 = db ∧
    ((recordProductUsage p db).2).lots = db.lots ∧
    ((recordProductUsage p db).2).products = db.products ∧
    ((recordProductUsage p db).2).usages = db.usages ∧
    ((recordProductUsage p db).2).relatedUsages = db.relatedUsages := by
  have hst := recordProductUsage_error_state h
  rw [hst]
  exact ⟨rfl, rfl, rfl, rfl, rfl⟩

/-- Witness for **C1**: a usage whose related product is missing fails with
the related-product error inside the transaction — after the primary lot
was already decremented there — and the state is rolled back wholesale. -/
theorem c1_usage_failure_rollback_witness :
    (recordProductUsage pFail dbA).1 = .error .relatedUnavailable ∧
    (recordProductUsage pFail dbA).2 = dbA := by
  have hEval : (recordProductUsage pFail dbA).1 = .error .relatedUnavailable := by
    norm_num [recordProductUsage, usageTxBody, relatedLoop, decLotAmount,
      findProduct, findServiceType, oldestInUseLot, oldestFold, oldestStep,
      inUseLots, lotKey, userExists, dbA, pFail, stExample,
      List.find?, List.filter]
    rfl
  exact ⟨hEval, (c1_usage_failure_rollback pFail dbA _ hEval).1⟩

/-- A usage of 6 units of product 10, whose oldest in-use lot holds only 5. -/
def pShort : RecordUsageParams :=
  { productId := 10, serviceTypeId := 3, usageAmount := 6,
    defaultAmount := none, nailLength := .MEDIUM, isCustomAmount := false,
    relatedProducts := [], note := none, recordedBy := 1 }

/--
**C2 (amended).** Related-product entries are checked only for existence and
a non-empty in-use lot set; the oldest in-use lot is selected and decremented
by the entry's amount with *no* quantity check, so a successful call can
drive a related lot's `currentAmount` below zero — an InsufficientQuantity
failure can only originate from the primary product's selected lot.
-/
theorem c2_related_checks_amended (db : DB) (p : RecordUsageParams) :
    ((db.lots.map (fun l => l.id)).Nodup →
      ∀ u db', recordProductUsage p db = (.ok u, db') →
        ∀ e ∈ p.relatedProducts, (oldestInUseLot db e.productId).isSome) ∧
    ((recordProductUsage p db).1 = .error .insufficientQuantity →
      ∃ m c, oldestInUseLot db p.productId = some m ∧
        m.currentAmount = some c ∧ c < p.usageAmount) := by
  constructor
  · intro hnd u db' h e he
    obtain ⟨lot, st, hsel, -, hbody⟩ := recordProductUsage_ok h
    exact (usageTxBody_ok hnd hsel hbody).2.2.2.2.2.2.2.2.2.2.2.2.2.2 e he
  · exact recordProductUsage_insufficient

/-- Counterexample to **C2** as stated: the related entry of `pA` asks for
1/2 from product 11 whose only in-use lot holds 1/10; the call nevertheless
succeeds and leaves that lot at −2/5 < 0. -/
theorem c2_related_no_quantity_check_counterexample :
    oldestInUseLot dbA 11 = some
      { id := 22, productId := 11, isInUse := true,
        currentAmount := some (1/10), startedAt := some 1 } ∧
    (1/10 : ℚ) < 1/2 ∧
    exceptIsOk (recordProductUsage pA dbA).1 = true ∧
    (recordProductUsage pA dbA).2.lots =
      [{ id := 20, productId := 10, isInUse := true,
         currentAmount := some (9/2), startedAt := some 1 },
       { id := 21, productId := 10, isInUse := true,
         currentAmount := some 5, startedAt := some 2 },
       { id := 22, productId := 11, isInUse := true,
         currentAmount := some (-(2/5)), startedAt := some 1 }] ∧
    (-(2/5) : ℚ) < 0 := by
  refine ⟨rfl, by norm_num, ?_, ?_, by norm_num⟩
  · norm_num [recordProductUsage, usageTxBody, relatedLoop, decLotAmount,
      findProduct, findServiceType, oldestInUseLot, oldestFold, oldestStep,
      inUseLots, lotKey, userExists, dbA, pA, stExample, exceptIsOk,
      List.find?, List.filter]
    rfl
  · norm_num [recordProductUsage, usageTxBody, relatedLoop, decLotAmount,
      findProduct, findServiceType, oldestInUseLot, oldestFold, oldestStep,
      inUseLots, lotKey, userExists, dbA, pA, stExample,
      List.find?, List.filter]
    rfl

/-- Witness for the amended **C2**: an InsufficientQuantity failure
(`pShort` asks for 6 from a lot holding 5) indeed exhibits a short primary
lot. -/
theorem c2_related_checks_amended_witness :
    (recordProductUsage pShort dbA).1 = .error .insufficientQuantity ∧
    ∃ m c, oldestInUseLot dbA 10 = some m ∧
      m.currentAmount = some c ∧ c < pShort.usageAmount := by
  have hEval : (recordProductUsage pShort dbA).1 = .error .insufficientQuantity := by
    norm_num [recordProductUsage, usageTxBody, relatedLoop, decLotAmount,
      findProduct, findServiceType, oldestInUseLot, oldestFold, oldestStep,
      inUseLots, lotKey, userExists, dbA, pShort, stExample,
      List.find?, List.filter]
  exact ⟨hEval, (c2_related_checks_amended dbA pShort).2 hEval⟩

/--
**C4.** `recordProductUsage` fails with OutOfStock when the product exists
but has no in-use lot; otherwise the created `Usage` references the in-use
lot with minimal `startedAt` (FIFO, oldest-opened first), and that is the
only lot of the primary product whose `currentAmount` is changed.
-/
theorem c4_fifo_selection (db : DB) (p : RecordUsageParams)
    (hnd : (db.lots.map (fun l => l.id)).Nodup) :
    ((findProduct db p.productId).isSome →
      oldestInUseLot db p.productId = none →
      (recordProductUsage p db).1 = .error .outOfStock) ∧
    (∀ m u db', oldestInUseLot db p.productId = some m →
      recordProductUsage p db = (.ok u, db') →
      u.usedLotId = m.id ∧ m.productId = p.productId ∧ m.isInUse = true ∧
      db'.usages = db.usages ++ [u] ∧
      (∀ l ∈ inUseLots db p.productId, lotKey m ≤ lotKey l) ∧
      (∀ l ∈ db.lots, l.isInUse = true → l.productId = p.productId →
        ∀ tm tl, m.startedAt = some tm → l.startedAt = some tl → tm ≤ tl) ∧
      List.Forall₂ (fun l l' => l.productId = p.productId → l.id ≠ m.id →
        l'.currentAmount = l.currentAmount) db.lots db'.lots) := by
  constructor
  · intro hp hno
    obtain ⟨prod, hprod⟩ := Option.isSome_iff_exists.mp hp
    simp [recordProductUsage, hprod, hno]
  · intro m u db' hm h
    obtain ⟨lot, st, hsel, hst, hbody⟩ := recordProductUsage_ok h
    have hlm : lot = m := Option.some.inj (hsel.symm.trans hm)
    subst hlm
    obtain ⟨hu1, -, -, -, -, -, -, -, -, husg, -, -, hF, -, -⟩ :=
      usageTxBody_ok hnd hsel hbody
    obtain ⟨hmem, hmpid, hminuse, hmin⟩ := oldestInUseLot_spec hm
    refine ⟨hu1, hmpid, hminuse, husg, hmin, ?_, ?_⟩
    · intro l hl hlinuse hlpid tm tl hmt hlt
      have hlmem : l ∈ inUseLots db p.productId :=
        List.mem_filter.mpr ⟨hl, by simp [hlpid, hlinuse]⟩
      have hk := hmin l hlmem
      simp only [lotKey, hmt, hlt] at hk
      omega
    · refine hF.imp ?_
      intro a b hab
      intro hapid haid
      refine hab.2 (Or.inl ?_)
      intro m' hm'
      rw [hapid, hm] at hm'
      cases Option.some.inj hm'
      exact fun hcon => haid (hcon.symm)

/--
**C10.** A successful `recordProductUsage` changes nothing beyond its
specified effects: stores, users, service types and monthly statistics are
untouched; every product other than the primary is unchanged and the
primary's counters (`totalQuantity`, `lotQuantity`, `inUseQuantity`) are
preserved, with only `usageCount` (+1) and `lastUsed` (:= now) modified;
every lot keeps its `id`, `productId`, `isInUse` and `startedAt`, and only a
selected (oldest in-use) lot of a participating product may change its
`currentAmount`; the only new rows are the `Usage`, the
`RelatedProductUsage`s and one activity record.
-/
theorem c10_usage_frame (db : DB) (p : RecordUsageParams) (u : UsageRec)
    (db' : DB) (hnd : (db.lots.map (fun l => l.id)).Nodup)
    (h : recordProductUsage p db = (.ok u, db')) :
    db'.stores = db.stores ∧ db'.users = db.users ∧
    db'.serviceTypes = db.serviceTypes ∧ db'.monthlyStats = db.monthlyStats ∧
    List.Forall₂ (productFrame p.productId db.now) db.products db'.products ∧
    List.Forall₂ (fun l l' => l'.id = l.id ∧ l'.productId = l.productId ∧
      l'.isInUse = l.isInUse ∧ l'.startedAt = l.startedAt ∧
      ((notSelected db l ∨
          l.productId ∉ p.productId :: p.relatedProducts.map (fun e => e.productId)) →
        l'.currentAmount = l.currentAmount))
      db.lots db'.lots ∧
    db'.usages = db.usages ++ [u] ∧
    (∃ xs, db'.relatedUsages = db.relatedUsages ++ xs) ∧
    (∃ a, db'.activities = db.activities ++ [a]) := by
  obtain ⟨lot, st, hsel, hst, hbody⟩ := recordProductUsage_ok h
  obtain ⟨-, -, -, -, -, h6, h7, h8, h9, h10, h11, h12, hF, hP, -⟩ :=
    usageTxBody_ok hnd hsel hbody
  refine ⟨h6, h7, h8, h9, hP, ?_, h10, h11, h12⟩
  refine hF.imp ?_
  intro a b hab
  obtain ⟨hsig, hamt⟩ := hab
  obtain ⟨h1, h2, h3, h4⟩ := lotSig_fields hsig
  exact ⟨h1, h2, h3, h4, hamt⟩

/-- The usage row produced by `recordProductUsage pA dbA`. -/
def uA : UsageRec :=
  { id := 100, date := 50, usageAmount := 1/2, defaultAmount := none,
    nailLength := .MEDIUM, isCustomAmount := false, isGelService := false,
    serviceTypeId := 3, productId := 10, usedLotId := 20, note := none }

/-- The state produced by `recordProductUsage pA dbA`. -/
def dbARes : DB :=
  { stores := [0], users := [1],
    products := [{ id := 10, storeId := 0, totalQuantity := 2,
                   inUseQuantity := 2, lotQuantity := 0, usageCount := 1,
                   lastUsed := some 50 },
                 { id := 11, storeId := 0, totalQuantity := 1,
                   inUseQuantity := 1, lotQuantity := 0, usageCount := 0,
                   lastUsed := none }],
    lots := [{ id := 20, productId := 10, isInUse := true,
               currentAmount := some (9/2), startedAt := some 1 },
             { id := 21, productId := 10, isInUse := true,
               currentAmount := some 5, startedAt := some 2 },
             { id := 22, productId := 11, isInUse := true,
               currentAmount := some (-(2/5)), startedAt := some 1 }],
    serviceTypes := [stExample],
    usages := [uA],
    relatedUsages := [{ id := 101, usageId := 100, productId := 11,
                        amount := 1/2, defaultAmount := none,
                        isCustomAmount := false, role := none, order := 0,
                        usedLotId := 22 }],
    activities := [{ userId := 1, activityType := "INVENTORY",
                     action := "RECORD_USAGE" }],
    monthlyStats := [], nextId := 102, now := 50 }

/-- Concrete evaluation of the successful usage recording on `dbA`. -/
theorem recordProductUsage_pA_dbA :
    recordProductUsage pA dbA = (.ok uA, dbARes) := by
  norm_num [recordProductUsage, usageTxBody, relatedLoop, decLotAmount,
    findProduct, findServiceType, oldestInUseLot, oldestFold, oldestStep,
    inUseLots, lotKey, userExists, dbA, pA, stExample, uA, dbARes,
    List.find?, List.filter]
  rfl

/-- Witness for **C4**: on `dbA` the usage draws from lot 20 (opened at
t = 1, before lot 21's t = 2) and lot 21's amount is untouched. -/
theorem c4_fifo_selection_witness :
    (dbA.lots.map (fun l => l.id)).Nodup ∧
    oldestInUseLot dbA 10 = some
      { id := 20, productId := 10, isInUse := true, currentAmount := some 5,
        startedAt := some 1 } ∧
    uA.usedLotId = 20 ∧ dbARes.usages = dbA.usages ++ [uA] := by
  have h := (c4_fifo_selection dbA pA (by decide)).2 _ uA dbARes rfl
    recordProductUsage_pA_dbA
  exact ⟨by decide, rfl, h.1, h.2.2.2.1⟩

/-- Witness for **C10**: the successful call on `dbA` only touches the
specified fields. -/
theorem c10_usage_frame_witness :
    dbARes.stores = dbA.stores ∧ dbARes.serviceTypes = dbA.serviceTypes ∧
    dbARes.monthlyStats = dbA.monthlyStats ∧
    dbARes.usages = dbA.usages ++ [uA] ∧
    (∃ a, dbARes.activities = dbA.activities ++ [a]) := by
  have h := c10_usage_frame dbA pA uA dbARes (by decide)
    recordProductUsage_pA_dbA
  exact ⟨h.1, h.2.2.1, h.2.2.2.1, h.2.2.2.2.2.2.1, h.2.2.2.2.2.2.2.2⟩
